import Mathlib

/-!
Verification development for the HuggingDuck connection module
(`src/huggingduck/connection.py`): a shallow embedding of the
`HuggingDuckDBConnection` core class (namespace derivation, repository file
listing with extension filters, dataset materialization with per-file
failure isolation, table-name introspection) and of the TTL query cache of
`HuggingDuckDBStConnection.query`.

Strings are modelled as `List Char`; the DuckDB connection, the Hugging Face
API and the filesystem are modelled by explicit inputs (the listing result as
an `Except`, the per-file load outcome as an oracle, path existence as a
predicate), and the side effects of `_connect` as an explicit action trace.
-/

/-- Convert a string literal to the `List Char` representation used throughout. -/
def chars (s : String) : List Char := s.toList

/-! ## Namespace derivation (`_connect`, lines 57–59)

Python: `self.repo_id.replace("/", "_").replace("-", "_")`.
`str.replace` with a single-character pattern replaces every occurrence of
that character, i.e. it maps each character of the string. -/

/-- `replaceChar old new s` embeds Python `s.replace(old, new)` for
single-character `old`/`new`: every occurrence of `old` becomes `new`. -/
def replaceChar (old new : Char) : List Char → List Char
  | [] => []
  | c :: cs => (if c = old then new else c) :: replaceChar old new cs

/-- Embeds `self.repo_id.replace("/", "_").replace("-", "_")`
(lines 57–59 of `connection.py`). -/
def derive_namespace (repo_id : List Char) : List Char :=
  replaceChar '-' '_' (replaceChar '/' '_' repo_id)

/-- A character valid in a schema identifier: alphanumeric or underscore. -/
def isSchemaChar (c : Char) : Bool := c.isAlphanum || c = '_'

/-- A schema name is valid when all of its characters are. -/
def validSchemaName (s : List Char) : Bool := s.all isSchemaChar

/-! ## Repository listing with extension filters
(`list_files_in_huggingface_repo`, lines 165–201) -/

/-- The `file_filters` argument: Python `Union[str, List[str]]` with `None`
as default. `truthy` mirrors Python truthiness (`if file_filters:`), under
which `None`, `""` and `[]` all mean "no filter". -/
inductive FileFilters where
  | nofilter : FileFilters
  | single (s : List Char) : FileFilters
  | many (l : List (List Char)) : FileFilters
deriving DecidableEq

/-- Python truthiness of the `file_filters` value. -/
def FileFilters.truthy : FileFilters → Bool
  | .nofilter => false
  | .single s => !s.isEmpty
  | .many l => !l.isEmpty

/-- The normalisation on line 184–187: a single string becomes a one-element
list; a list is used as is. -/
def FileFilters.toList : FileFilters → List (List Char)
  | .nofilter => []
  | .single s => [s]
  | .many l => l

/-- The inner `for file_filter in file_filters` loop with `break`
(lines 191–194): scan the filters in order, stop at the first
`file.endswith("." + file_filter)` match. -/
def matchesAnyFilter (file : List Char) : List (List Char) → Bool
  | [] => false
  | fl :: fls =>
      if List.isSuffixOf ('.' :: fl) file then true
      else matchesAnyFilter file fls

/-- The outer `for file in repo_files` loop (lines 189–195): a file is
appended to `filtered_files` exactly once when some filter matches it. -/
def filterFiles : List (List Char) → List (List Char) → List (List Char)
  | [], _ => []
  | f :: fs, fls =>
      if matchesAnyFilter f fls then f :: filterFiles fs fls
      else filterFiles fs fls

/-- Embeds `list_files_in_huggingface_repo` (lines 165–201). The Hugging Face
API call `api.list_repo_files(...)` is the `repo_files` input: `Except.error`
models the `try` body raising. Result: the returned file list, paired with a
flag recording whether `logger.error` ran (line 200). -/
def list_files_in_huggingface_repo
    (repo_files : Except Unit (List (List Char)))
    (file_filters : FileFilters) : List (List Char) × Bool :=
  match repo_files with
  | .error _ => ([], true)
  | .ok files =>
      if file_filters.truthy then (filterFiles files file_filters.toList, false)
      else (files, false)

/-- The spec's reading of the filter contract, for comparison with the code:
the file name ends in `.<ext>` with the extension matched
case-insensitively. -/
def endsWithExtCI (file ext : List Char) : Bool :=
  List.isSuffixOf ('.' :: ext.map Char.toLower) (file.map Char.toLower)

/-! ## Dataset materialization (`_load_all_datasets`, lines 94–137) -/

/-- One row of the `metadata` table
`(file_name, file_size, file_type, row_count, is_loaded)`. -/
structure MetadataRecord where
  file_name : List Char
  file_size : Nat
  file_type : List Char
  row_count : Nat
  is_loaded : Bool
deriving DecidableEq

/-- Embeds `file.split(".")` (Python `str.split` on a one-character
separator). -/
def splitOnChar (sep : Char) : List Char → List (List Char)
  | [] => [[]]
  | c :: cs =>
      match splitOnChar sep cs with
      | [] => [[c]]
      | r :: rs => if c = sep then [] :: r :: rs else (c :: r) :: rs

/-- Embeds `file.split(".")[-1].lower()` (line 121). -/
def file_type_of (file : List Char) : List Char :=
  ((splitOnChar '.' file).getLastD []).map Char.toLower

/-- One iteration of the `for file in files` loop body (lines 100–137).
The `load` oracle models the effect of the `CREATE TABLE ... AS SELECT`
plus the row-count query: `.ok rc` is a successful load observing `rc`
rows, `.error` is any raised exception caught on line 132.
Success path: `file_size = 0` (line 118), `file_type` from the extension,
`is_loaded = TRUE`. Failure path: the literal row of line 136. -/
def load_one_dataset (load : List Char → Except Unit Nat)
    (file : List Char) : MetadataRecord :=
  match load file with
  | .ok rc =>
      { file_name := file, file_size := 0, file_type := file_type_of file
        row_count := rc, is_loaded := true }
  | .error _ =>
      { file_name := file, file_size := 0, file_type := chars "unknown"
        row_count := 0, is_loaded := false }

/-- The failure-path metadata row of line 136:
`VALUES ('{file}', 0, 'unknown', 0, FALSE)`. -/
def failureRecord (file : List Char) : MetadataRecord :=
  { file_name := file, file_size := 0, file_type := chars "unknown"
    row_count := 0, is_loaded := false }

/-- Embeds `_load_all_datasets` (lines 94–137): iterate over the listed
files, appending exactly one metadata row per iteration to the (append-only)
`metadata` table, success or failure. -/
def load_all_datasets (load : List Char → Except Unit Nat)
    (files : List (List Char))
    (metadata : List MetadataRecord) : List MetadataRecord :=
  match files with
  | [] => metadata
  | f :: fs => load_all_datasets load fs (metadata ++ [load_one_dataset load f])

/-! ## Store bootstrap (`_connect`, lines 46–89) -/

/-- The observable store effects of `_connect`, in program order. -/
inductive ConnectAction where
  | createSchema (name : List Char) : ConnectAction
  | setSearchPath (name : List Char) : ConnectAction
  | createMetadataTable (name : List Char) : ConnectAction
  | loadAllFiles : ConnectAction
deriving DecidableEq

/-- Embeds the branch structure of `_connect` (lines 46–89): `db_exists` is
`os.path.exists(db_path)` when a path is given, `False` for in-memory
(line 53); when `force_recreate or not db_exists` the schema and the
metadata table are created and `_load_all_datasets` runs (lines 62–79),
otherwise only the search path is set (lines 80–87). -/
def connectActions (db_path : Option (List Char))
    (pathExists : List Char → Bool)
    (force_recreate : Bool) (repo_id : List Char) : List ConnectAction :=
  let db_exists := match db_path with
    | some p => pathExists p
    | none => false
  let schema := derive_namespace repo_id
  if force_recreate || !db_exists then
    [ConnectAction.createSchema schema, ConnectAction.setSearchPath schema,
     ConnectAction.createMetadataTable schema, ConnectAction.loadAllFiles]
  else
    [ConnectAction.setSearchPath schema]

/-! ## Table-name introspection (`get_table_names`, lines 203–219) -/

/-- The reserved metadata table name. -/
def metadata_name : List Char := chars "metadata"

/-- Embeds `get_table_names` (lines 203–219). The `SHOW TABLES` query is the
`showTables` input; `.error` models it raising. Result: the returned name
list, paired with a flag recording whether `logger.error` ran (line 218). -/
def get_table_names (showTables : Except Unit (List (List Char)))
    (exclude_metadata : Bool) : List (List Char) × Bool :=
  match showTables with
  | .ok names =>
      (if exclude_metadata then
        names.filter (fun n => decide (n ≠ metadata_name))
      else names, false)
  | .error _ => ([], true)

/-! ## TTL query cache (`HuggingDuckDBStConnection.query`, lines 264–279)

Modelled from the spec: `HuggingDuckDBStConnection.query` delegates all
caching to Streamlit's `st.cache_data(ttl=ttl)` decorator, an external
capability whose implementation is not part of this repository. Its
behaviour is modelled from §4.5 of the spec: entries are keyed by
(SQL text, TTL), hold the result and an expiry of `now + ttl`, a hit within
TTL returns the stored result without executing, a miss or expiry executes
against the store and stores a fresh entry. -/

/-- One cache entry: key = (SQL text, TTL), value plus expiry timestamp. -/
structure CacheEntry (α : Type) where
  key : List Char
  ttl : Nat
  value : α
  expiry : Nat

/-- Look a key up in the cache at time `now`: the first entry with matching
SQL text and TTL that has not expired. -/
def cacheLookup {α : Type} (sql : List Char) (ttl now : Nat) :
    List (CacheEntry α) → Option α
  | [] => none
  | e :: es =>
      if e.key = sql ∧ e.ttl = ttl ∧ now < e.expiry then some e.value
      else cacheLookup sql ttl now es

/-- Outcome of one `query(sql, ttl)` call: the result, the cache state
after the call, and whether the underlying store was executed. -/
structure QueryOutcome (α : Type) where
  result : α
  state : List (CacheEntry α)
  executed : Bool

/-- Modelled from the spec: one call of
`HuggingDuckDBStConnection.query(sql, ttl)` at time `now` against cache
state `st`, with `exec` the underlying store execution
(`self._instance.query`). Hit within TTL: return the stored result without
touching the store. Miss or expiry: execute, store with expiry
`now + ttl`. -/
def cachedQuery {α : Type} (exec : List Char → α) (sql : List Char)
    (ttl now : Nat) (st : List (CacheEntry α)) : QueryOutcome α :=
  match cacheLookup sql ttl now st with
  | some v => { result := v, state := st, executed := false }
  | none =>
      let v := exec sql
      { result := v
        state := { key := sql, ttl := ttl, value := v, expiry := now + ttl } :: st
        executed := true }

/-! ## Helper lemmas -/

/-- Replacing a single character is mapping each character of the string. -/
theorem replaceChar_eq_map (old new : Char) (l : List Char) :
    replaceChar old new l = l.map (fun c => if c = old then new else c) := by
  induction l with
  | nil => rfl
  | cons c cs ih => simp [replaceChar, ih]

/-- One materialization pass appends the per-file rows, in listing order,
after the rows already present. -/
theorem load_all_datasets_eq (load : List Char → Except Unit Nat)
    (files : List (List Char)) (metadata : List MetadataRecord) :
    load_all_datasets load files metadata
      = metadata ++ files.map (load_one_dataset load) := by
  induction files generalizing metadata with
  | nil => simp [load_all_datasets]
  | cons f fs ih => simp [load_all_datasets, ih]

/-- The inner filter loop with `break` decides exactly "some filter
matches". -/
theorem matchesAnyFilter_eq_any (file : List Char) (fls : List (List Char)) :
    matchesAnyFilter file fls
      = fls.any (fun fl => List.isSuffixOf ('.' :: fl) file) := by
  induction fls with
  | nil => rfl
  | cons fl fls ih =>
      cases hsf : List.isSuffixOf ('.' :: fl) file <;>
        simp [matchesAnyFilter, hsf, ih]

/-- The outer loop is a `List.filter` by the match predicate. -/
theorem filterFiles_eq_filter (files fls : List (List Char)) :
    filterFiles files fls = files.filter (fun f => matchesAnyFilter f fls) := by
  induction files with
  | nil => rfl
  | cons f fs ih =>
      cases hm : matchesAnyFilter f fls <;>
        simp [filterFiles, hm, ih, List.filter_cons]

/-- A cache miss executes and stores an entry expiring at `now + ttl`. -/
theorem cachedQuery_miss {α : Type} (exec : List Char → α) (sql : List Char)
    (ttl now : Nat) (st : List (CacheEntry α))
    (hl : cacheLookup sql ttl now st = none) :
    cachedQuery exec sql ttl now st =
      { result := exec sql
        state := { key := sql, ttl := ttl, value := exec sql, expiry := now + ttl } :: st
        executed := true } := by
  unfold cachedQuery
  rw [hl]

/-- A cache hit returns the stored value without executing. -/
theorem cachedQuery_hit {α : Type} (exec : List Char → α) (sql : List Char)
    (ttl now : Nat) (st : List (CacheEntry α)) (v : α)
    (hl : cacheLookup sql ttl now st = some v) :
    cachedQuery exec sql ttl now st =
      { result := v, state := st, executed := false } := by
  unfold cachedQuery
  rw [hl]

/-! ## Claim theorems -/

/-- Claim C1: during one materialization pass, a file whose load fails gets
a metadata row with `file_size = 0`, `file_type = "unknown"`,
`row_count = 0`, `is_loaded = false`, and every file after it in the batch
is still processed exactly as it would have been — one file's failure never
aborts materialization of the remaining files. -/
theorem load_all_datasets_failure_isolated
    (load : List Char → Except Unit Nat) (pre post : List (List Char))
    (f : List Char) (metadata : List MetadataRecord)
    (h : load f = Except.error ()) :
    load_all_datasets load (pre ++ f :: post) metadata =
      metadata ++ pre.map (load_one_dataset load)
        ++ failureRecord f :: post.map (load_one_dataset load) := by
  rw [load_all_datasets_eq, List.map_append, List.map_cons]
  have hf : load_one_dataset load f = failureRecord f := by
    simp [load_one_dataset, h, failureRecord]
  rw [hf, List.append_assoc]

/-- Claim C1 witness: a concrete batch where the middle file fails. -/
theorem load_all_datasets_failure_isolated_witness :
    (fun fl => if fl = chars "b.csv" then Except.error () else Except.ok 3)
        (chars "b.csv") = Except.error () ∧
    load_all_datasets
        (fun fl => if fl = chars "b.csv" then Except.error () else Except.ok 3)
        ([chars "a.csv"] ++ chars "b.csv" :: [chars "c.csv"]) [] =
      [] ++ ([chars "a.csv"]).map (load_one_dataset
          (fun fl => if fl = chars "b.csv" then Except.error () else Except.ok 3))
        ++ failureRecord (chars "b.csv") :: ([chars "c.csv"]).map (load_one_dataset
          (fun fl => if fl = chars "b.csv" then Except.error () else Except.ok 3)) :=
  ⟨rfl, load_all_datasets_failure_isolated _ [chars "a.csv"] [chars "c.csv"]
      (chars "b.csv") [] rfl⟩

/-- Claim C2: one materialization pass appends exactly one metadata row per
listed file (the per-file rows in listing order), so the number of rows
added equals the number of files listed. -/
theorem load_all_datasets_one_row_per_file
    (load : List Char → Except Unit Nat) (files : List (List Char))
    (metadata : List MetadataRecord) :
    load_all_datasets load files metadata
        = metadata ++ files.map (load_one_dataset load) ∧
    (load_all_datasets load files metadata).length
        = metadata.length + files.length := by
  refine ⟨load_all_datasets_eq load files metadata, ?_⟩
  rw [load_all_datasets_eq]
  simp

/-- Claim C3 counterexample: a repository identifier containing a dot
yields a namespace that is not alphanumeric-plus-underscore, because the
derivation only replaces `/` and `-`. -/
theorem derive_namespace_not_schema_safe :
    derive_namespace (chars "a.b/c") = chars "a.b_c" ∧
    validSchemaName (derive_namespace (chars "a.b/c")) = false := by decide

/-- Claim C3 (amended): the namespace derivation is deterministic, and its
output contains only alphanumerics and underscores whenever the repository
identifier contains only alphanumerics, underscores, `/` and `-`; any other
character passes through unchanged. -/
theorem derive_namespace_deterministic_and_valid
    (repo_id : List Char)
    (h : ∀ c ∈ repo_id, isSchemaChar c = true ∨ c = '/' ∨ c = '-') :
    (∀ s : List Char, s = repo_id → derive_namespace s = derive_namespace repo_id) ∧
    validSchemaName (derive_namespace repo_id) = true := by
  refine ⟨fun s hs => by rw [hs], ?_⟩
  unfold derive_namespace
  rw [replaceChar_eq_map, replaceChar_eq_map, List.map_map]
  rw [validSchemaName, List.all_eq_true]
  intro c hc
  rw [List.mem_map] at hc
  obtain ⟨a, ha, rfl⟩ := hc
  by_cases h1 : a = '/'
  · subst h1; decide
  · by_cases h2 : a = '-'
    · subst h2; decide
    · rcases h a ha with hs | hs | hs
      · simpa [Function.comp, h1, h2] using hs
      · exact absurd hs h1
      · exact absurd hs h2

/-- Claim C3 witness: the repository identifier of the README example. -/
theorem derive_namespace_deterministic_and_valid_witness :
    (∀ c ∈ chars "mjboothaus/titanic-databooth",
        isSchemaChar c = true ∨ c = '/' ∨ c = '-') ∧
    validSchemaName (derive_namespace (chars "mjboothaus/titanic-databooth")) = true :=
  ⟨by decide,
   (derive_namespace_deterministic_and_valid (chars "mjboothaus/titanic-databooth")
      (by decide)).2⟩

/-- Claim C4: two `query(sql, ttl)` calls with identical arguments within
`ttl` seconds execute the underlying store at most once — if the first call
executed, the second returns the cached result without executing — and a
call made after `ttl` seconds have elapsed re-executes against the store. -/
theorem query_ttl_cache_single_execution {α : Type}
    (exec : List Char → α) (sql : List Char) (ttl t₁ t₂ t₃ : Nat)
    (st : List (CacheEntry α)) (h : t₂ < t₁ + ttl) (h3 : t₁ + ttl ≤ t₃) :
    (¬((cachedQuery exec sql ttl t₁ st).executed = true ∧
       (cachedQuery exec sql ttl t₂
          (cachedQuery exec sql ttl t₁ st).state).executed = true)) ∧
    ((cachedQuery exec sql ttl t₁ st).executed = true →
       (cachedQuery exec sql ttl t₂
          (cachedQuery exec sql ttl t₁ st).state).result
         = (cachedQuery exec sql ttl t₁ st).result) ∧
    (cachedQuery exec sql ttl t₃
       (cachedQuery exec sql ttl t₁ ([] : List (CacheEntry α))).state).executed
      = true := by
  have hhit : ∀ st1 : List (CacheEntry α),
      cacheLookup sql ttl t₂
        ({ key := sql, ttl := ttl, value := exec sql, expiry := t₁ + ttl } :: st1)
        = some (exec sql) := by
    intro st1
    unfold cacheLookup
    rw [if_pos ⟨rfl, rfl, h⟩]
  refine ⟨?_, ?_, ?_⟩
  · rintro ⟨h1, h2⟩
    cases hl : cacheLookup sql ttl t₁ st with
    | some v =>
        rw [cachedQuery_hit exec sql ttl t₁ st v hl] at h1
        exact Bool.false_ne_true h1
    | none =>
        rw [cachedQuery_miss exec sql ttl t₁ st hl] at h2
        rw [cachedQuery_hit exec sql ttl t₂ _ _ (hhit st)] at h2
        exact Bool.false_ne_true h2
  · intro h1
    cases hl : cacheLookup sql ttl t₁ st with
    | some v =>
        rw [cachedQuery_hit exec sql ttl t₁ st v hl] at h1
        exact absurd h1 Bool.false_ne_true
    | none =>
        rw [cachedQuery_miss exec sql ttl t₁ st hl,
          cachedQuery_hit exec sql ttl t₂ _ _ (hhit st)]
  · have hl0 : cacheLookup sql ttl t₁ ([] : List (CacheEntry α)) = none := rfl
    rw [cachedQuery_miss exec sql ttl t₁ _ hl0]
    have hl3 : cacheLookup sql ttl t₃
        ({ key := sql, ttl := ttl, value := exec sql, expiry := t₁ + ttl }
          :: ([] : List (CacheEntry α))) = none := by
      unfold cacheLookup
      rw [if_neg]
      · rfl
      · rintro ⟨-, -, hlt⟩
        exact absurd hlt (Nat.not_lt.mpr h3)
    rw [cachedQuery_miss exec sql ttl t₃ _ hl3]

/-- Claim C4 witness: a concrete cache run with `ttl = 10`, calls at times
0 and 5 (hit) and at time 10 (expired, re-executes). -/
theorem query_ttl_cache_single_execution_witness :
    (¬((cachedQuery (fun _ => (7 : Nat)) (chars "SELECT 1") 10 0
          ([] : List (CacheEntry Nat))).executed = true ∧
       (cachedQuery (fun _ => (7 : Nat)) (chars "SELECT 1") 10 5
          (cachedQuery (fun _ => (7 : Nat)) (chars "SELECT 1") 10 0
            ([] : List (CacheEntry Nat))).state).executed = true)) ∧
    ((cachedQuery (fun _ => (7 : Nat)) (chars "SELECT 1") 10 0
        ([] : List (CacheEntry Nat))).executed = true →
       (cachedQuery (fun _ => (7 : Nat)) (chars "SELECT 1") 10 5
          (cachedQuery (fun _ => (7 : Nat)) (chars "SELECT 1") 10 0
            ([] : List (CacheEntry Nat))).state).result
         = (cachedQuery (fun _ => (7 : Nat)) (chars "SELECT 1") 10 0
            ([] : List (CacheEntry Nat))).result) ∧
    (cachedQuery (fun _ => (7 : Nat)) (chars "SELECT 1") 10 10
       (cachedQuery (fun _ => (7 : Nat)) (chars "SELECT 1") 10 0
         ([] : List (CacheEntry Nat))).state).executed = true :=
  query_ttl_cache_single_execution (fun _ => (7 : Nat)) (chars "SELECT 1")
    10 0 5 10 [] (by decide) (by decide)

/-- Claim C5 counterexample: with filter `"csv"`, the file `"DATA.CSV"`
ends in `.csv` up to case, yet `list_files_in_huggingface_repo` does not
return it — the extension match is case-sensitive, not case-insensitive as
claimed. -/
theorem list_files_not_case_insensitive :
    endsWithExtCI (chars "DATA.CSV") (chars "csv") = true ∧
    (list_files_in_huggingface_repo (Except.ok [chars "DATA.CSV"])
        (FileFilters.single (chars "csv"))).fst = [] := by decide

/-- Claim C5 (amended): for every non-empty (truthy) filter set,
`list_files_in_huggingface_repo` returns exactly the files whose name ends
in `.<ext>` for some ext in the filters, with the extension matched
case-sensitively. -/
theorem list_files_filter_case_sensitive
    (listing : List (List Char)) (file_filters : FileFilters)
    (h : file_filters.truthy = true) :
    (list_files_in_huggingface_repo (Except.ok listing) file_filters).fst =
      listing.filter
        (fun f => file_filters.toList.any
          (fun fl => List.isSuffixOf ('.' :: fl) f)) := by
  simp only [list_files_in_huggingface_repo, h, if_pos]
  rw [filterFiles_eq_filter]
  simp only [matchesAnyFilter_eq_any]

/-- Claim C5 witness: filter `"csv"` keeps `data.csv` and drops `DATA.CSV`
and `notes.md`. -/
theorem list_files_filter_case_sensitive_witness :
    (FileFilters.single (chars "csv")).truthy = true ∧
    (list_files_in_huggingface_repo
        (Except.ok [chars "data.csv", chars "DATA.CSV", chars "notes.md"])
        (FileFilters.single (chars "csv"))).fst =
      ([chars "data.csv", chars "DATA.CSV", chars "notes.md"]).filter
        (fun f => (FileFilters.single (chars "csv")).toList.any
          (fun fl => List.isSuffixOf ('.' :: fl) f)) :=
  ⟨by decide,
   list_files_filter_case_sensitive
     [chars "data.csv", chars "DATA.CSV", chars "notes.md"]
     (FileFilters.single (chars "csv")) (by decide)⟩

/-- Claim C6: with a persistent storage target, if the store file exists
and `force_recreate` is false, `_connect` only sets the search path — no
schema creation, no metadata table, no materialization; otherwise it
creates the namespace schema and the metadata table and materializes all
discovered files. -/
theorem connect_skips_ingestion_when_db_exists
    (p : List Char) (pathExists : List Char → Bool)
    (force_recreate : Bool) (repo_id : List Char) :
    (pathExists p = true → force_recreate = false →
      connectActions (some p) pathExists force_recreate repo_id =
        [ConnectAction.setSearchPath (derive_namespace repo_id)]) ∧
    (pathExists p = false ∨ force_recreate = true →
      connectActions (some p) pathExists force_recreate repo_id =
        [ConnectAction.createSchema (derive_namespace repo_id),
         ConnectAction.setSearchPath (derive_namespace repo_id),
         ConnectAction.createMetadataTable (derive_namespace repo_id),
         ConnectAction.loadAllFiles]) := by
  constructor
  · intro h1 h2
    simp [connectActions, h1, h2]
  · rintro (h1 | h1) <;> simp [connectActions, h1]

/-- Claim C6 witness: a concrete persistent target, present then absent. -/
theorem connect_skips_ingestion_when_db_exists_witness :
    ((fun _ : List Char => true) (chars "titanic.duckdb") = true) ∧
    connectActions (some (chars "titanic.duckdb")) (fun _ => true) false
        (chars "mjboothaus/titanic-databooth") =
      [ConnectAction.setSearchPath
        (derive_namespace (chars "mjboothaus/titanic-databooth"))] ∧
    connectActions (some (chars "titanic.duckdb")) (fun _ => false) false
        (chars "mjboothaus/titanic-databooth") =
      [ConnectAction.createSchema
        (derive_namespace (chars "mjboothaus/titanic-databooth")),
       ConnectAction.setSearchPath
        (derive_namespace (chars "mjboothaus/titanic-databooth")),
       ConnectAction.createMetadataTable
        (derive_namespace (chars "mjboothaus/titanic-databooth")),
       ConnectAction.loadAllFiles] :=
  ⟨rfl,
   (connect_skips_ingestion_when_db_exists (chars "titanic.duckdb")
      (fun _ => true) false (chars "mjboothaus/titanic-databooth")).1 rfl rfl,
   (connect_skips_ingestion_when_db_exists (chars "titanic.duckdb")
      (fun _ => false) false (chars "mjboothaus/titanic-databooth")).2
     (Or.inl rfl)⟩

/-- Claim C7: when the remote registry listing fails,
`list_files_in_huggingface_repo` returns an empty list and logs the error,
for every filter value — the failure never propagates to the caller. -/
theorem list_files_error_returns_empty
    (e : Unit) (file_filters : FileFilters) :
    list_files_in_huggingface_repo (Except.error e) file_filters
      = ([], true) := rfl

/-- Claim C8: every metadata row appended by `_load_all_datasets` has
`file_size = 0`, on the success path as well as the failure path. -/
theorem metadata_file_size_always_zero
    (load : List Char → Except Unit Nat) (files : List (List Char))
    (r : MetadataRecord)
    (h : r ∈ load_all_datasets load files []) :
    r.file_size = 0 := by
  rw [load_all_datasets_eq] at h
  rw [List.nil_append, List.mem_map] at h
  obtain ⟨f, hf, rfl⟩ := h
  unfold load_one_dataset
  cases load f <;> rfl

/-- Claim C8 witness: the row of a failed load in a concrete pass. -/
theorem metadata_file_size_always_zero_witness :
    failureRecord (chars "bad.csv") ∈
      load_all_datasets (fun _ => Except.error ()) [chars "bad.csv"] [] ∧
    (failureRecord (chars "bad.csv")).file_size = 0 :=
  ⟨by decide,
   metadata_file_size_always_zero (fun _ => Except.error ())
     [chars "bad.csv"] (failureRecord (chars "bad.csv")) (by decide)⟩

/-- Claim C9: the filtered result of `list_files_in_huggingface_repo` is a
sublist of the registry listing (relative order preserved), and each file
occurs in the result at most as often as in the listing, even when its name
matches more than one filter extension. -/
theorem list_files_filter_order_and_multiplicity
    (listing : List (List Char)) (file_filters : FileFilters) :
    ((list_files_in_huggingface_repo (Except.ok listing) file_filters).fst).Sublist
        listing ∧
    ∀ f, ((list_files_in_huggingface_repo (Except.ok listing) file_filters).fst).count f
        ≤ listing.count f := by
  have hsub :
      ((list_files_in_huggingface_repo (Except.ok listing) file_filters).fst).Sublist
        listing := by
    unfold list_files_in_huggingface_repo
    cases ht : file_filters.truthy with
    | false => simp [ht]
    | true =>
        simp only [ht, if_pos]
        rw [filterFiles_eq_filter]
        exact List.filter_sublist listing
  exact ⟨hsub, fun f => hsub.count_le f⟩

/-- Claim C10: `get_table_names` never raises — on any introspection error
it logs and returns the empty list, which is the same list a store with no
tables returns, so the caller cannot tell the two apart. -/
theorem get_table_names_error_returns_empty
    (e : Unit) (exclude_metadata : Bool) :
    get_table_names (Except.error e) exclude_metadata = ([], true) ∧
    (get_table_names (Except.ok []) exclude_metadata).fst = [] := by
  refine ⟨rfl, ?_⟩
  cases exclude_metadata <;> rfl
